import Mathlib

/-!
Shallow embedding of the order/payment logic of
`src/E-COMMERCE-STORE/backend/server.py`.

Orders live in a MongoDB collection; we model the collection as a
`List OrderRec` and `update_one` / `find_one` as first-match operations.
Python floats are carried as the exact rational values of the binary64
doubles they store; float arithmetic rounds every result to the nearest
binary64 (`fl`, round-to-nearest ties-to-even); Python `int(x)` truncates
toward zero, modelled by `pyInt`.
-/

namespace ECom

/-- Embeds `class CartItem(BaseModel)`: `product_id`, `quantity : int`, `price : float`. -/
structure CartItem where
  product_id : String
  quantity : Int
  price : ℚ
  deriving DecidableEq, Repr

/-- Embeds `class Order(BaseModel)` (server.py:91).  `created_at` is omitted (opaque
timestamp, never read by the operations we verify).  `transaction_reference`
is not a declared pydantic field, but `confirm_upi_payment` writes it into the
stored document via `$set`, so the stored record carries it. -/
structure OrderRec where
  id : String
  customer_name : String
  customer_email : String
  customer_phone : String
  customer_address : String
  items : List CartItem
  total_amount : ℚ
  payment_method : String
  payment_status : String
  order_status : String
  razorpay_order_id : Option String
  razorpay_payment_id : Option String
  transaction_reference : Option String
  deriving DecidableEq, Repr

/-- Request body of `POST /orders` (`class OrderCreate`). -/
structure OrderCreate where
  customer_name : String
  customer_email : String
  customer_phone : String
  customer_address : String
  items : List CartItem
  payment_method : String
  deriving DecidableEq, Repr

/-- Request body of `POST /payments/verify-payment` (`class PaymentVerification`). -/
structure PaymentVerification where
  razorpay_order_id : String
  razorpay_payment_id : String
  razorpay_signature : String
  order_id : String
  deriving DecidableEq, Repr

/-- Raw JSON payload before pydantic validation: every field may be absent.
FastAPI rejects the request (422 validation error) before the handler runs
when a required field is missing. -/
structure RawVerifyPayload where
  razorpay_order_id : Option String
  razorpay_payment_id : Option String
  razorpay_signature : Option String
  order_id : Option String
  deriving DecidableEq, Repr

/-- Error outcomes of the handlers, mapped from the HTTP layer:
`not_found` = HTTPException 404, `bad_request` = pydantic/FastAPI request
validation failure, `verification_failed` = HTTPException 400
"Payment verification failed" (the spec's `signature_mismatch`),
`provider_error` = an exception from the Razorpay client propagating
unhandled out of the handler. -/
inductive ApiError where
  | not_found
  | bad_request
  | verification_failed
  | provider_error
  deriving DecidableEq, Repr

/-- The database (the `orders` collection). -/
abbrev Db := List OrderRec

/-- Embeds `db.orders.find_one({"id": oid})`: first document whose `id` matches. -/
def findOrder (db : Db) (oid : String) : Option OrderRec :=
  db.find? (fun o => o.id = oid)

/-- Embeds `db.orders.update_one({"id": oid}, {"$set": ...})`: apply `f` to the
first document whose `id` matches; at most one document is updated. -/
def updateFirst (db : Db) (oid : String) (f : OrderRec → OrderRec) : Db :=
  match db with
  | [] => []
  | o :: rest =>
    if o.id = oid then f o :: rest else o :: updateFirst rest oid f

/-- Python `int(x)` on a float: truncation toward zero. -/
def pyInt (q : ℚ) : ℤ :=
  if q < 0 then ⌈q⌉ else ⌊q⌋

/-- Round-half-to-even of a rational to an integer: the tie-breaking rule
of IEEE-754 round-to-nearest. -/
def roundHalfEven (s : ℚ) : ℤ :=
  if s - (⌊s⌋ : ℚ) < 1/2 then ⌊s⌋
  else if 1/2 < s - (⌊s⌋ : ℚ) then ⌊s⌋ + 1
  else if ⌊s⌋ % 2 = 0 then ⌊s⌋ else ⌊s⌋ + 1

/-- Rounding of a positive rational to 53 significant binary digits
(round-to-nearest, ties to even): the significand rounding of an IEEE
binary64 in the normal range. -/
def flPos (q : ℚ) : ℚ :=
  ((roundHalfEven (q * 2 ^ (52 - Int.log 2 q)) : ℤ) : ℚ) * 2 ^ (Int.log 2 q - 52)

/-- The IEEE binary64 (Python `float`) value nearest a rational: every
Python float operation rounds its exact result with `fl`.  Modelled for
the normal range — no overflow to infinity, no subnormals — which covers
every currency amount the handlers compute. -/
def fl (q : ℚ) : ℚ :=
  if q = 0 then 0
  else if q < 0 then -flPos (-q)
  else flPos q

/-- Python float multiplication: exact product, rounded to binary64. -/
def flMul (x y : ℚ) : ℚ := fl (x * y)

/-- Python float addition: exact sum, rounded to binary64. -/
def flAdd (x y : ℚ) : ℚ := fl (x + y)

/-- Embeds `total_amount = sum(item.price * item.quantity for item in order.items)`
(server.py:276) under Python float semantics: `item.price` holds a binary64
value, `item.quantity` (an `int`) is converted to binary64, and each product
and each running sum of Python's left-to-right `sum` is rounded to the
nearest binary64 by `fl`. -/
def totalAmount (items : List CartItem) : ℚ :=
  items.foldl (fun acc i => flAdd acc (flMul i.price (fl (i.quantity : ℚ)))) 0

/-- Embeds `create_order` (server.py:273-283).  The handler performs no validation:
it computes the total, builds the `Order` with the pydantic defaults
`payment_status = "pending"`, `order_status = "placed"`, inserts it and
returns it.  `newId` stands for the generated `uuid4`. -/
def create_order (req : OrderCreate) (newId : String) (db : Db) : OrderRec × Db :=
  let o : OrderRec :=
    { id := newId
      customer_name := req.customer_name
      customer_email := req.customer_email
      customer_phone := req.customer_phone
      customer_address := req.customer_address
      items := req.items
      total_amount := totalAmount req.items
      payment_method := req.payment_method
      payment_status := "pending"
      order_status := "placed"
      razorpay_order_id := none
      razorpay_payment_id := none
      transaction_reference := none }
  (o, db ++ [o])

/-- Embeds `amount_in_paise = int(order["total_amount"] * 100)` (server.py:301). -/
def amountInPaise (o : OrderRec) : ℤ :=
  pyInt (o.total_amount * 100)

/-- Outcome of `razorpay_client.order.create`: either a provider order id,
or a failure (network error / malformed response → a raised exception). -/
inductive AdapterResult where
  | ok (rzpOrderId : String)
  | err
  deriving DecidableEq, Repr

/-- Successful response body of `POST /payments/create-razorpay-order`.
The `key` field (an environment variable) is omitted. -/
structure RzpResponse where
  razorpay_order_id : String
  amount : ℤ
  currency : String
  deriving DecidableEq, Repr

/-- Embeds `create_razorpay_order` (server.py:293-320).  404 if the order is
missing; otherwise calls the adapter with the truncated minor-unit amount.
There is no `try/except` around the adapter call: an adapter failure
propagates out of the handler before any database write. -/
def create_razorpay_order (adapter : AdapterResult) (oid : String) (db : Db) :
    Except ApiError RzpResponse × Db :=
  match findOrder db oid with
  | none => (.error .not_found, db)
  | some o =>
    match adapter with
    | .err => (.error .provider_error, db)
    | .ok rid =>
      (.ok { razorpay_order_id := rid, amount := amountInPaise o, currency := "INR" },
       updateFirst db oid (fun x => { x with razorpay_order_id := some rid }))

/-- Embeds `verify_payment` (server.py:322-349).  `sigc` stands for
`razorpay_client.utility.verify_payment_signature`, a deterministic check of
the payload against the server secret.  On success the handler blindly
`$set`s `payment_status = "paid"`, `order_status = "confirmed"` and the
payment id on the first matching document; on failure it `$set`s
`payment_status = "failed"` and raises 400.  It never looks the order up,
so a missing order means the update matches nothing. -/
def verify_payment (sigc : PaymentVerification → Bool) (p : PaymentVerification)
    (db : Db) : Except ApiError String × Db :=
  if sigc p then
    (.ok "Payment verified successfully",
     updateFirst db p.order_id (fun o =>
       { o with payment_status := "paid", order_status := "confirmed",
                razorpay_payment_id := some p.razorpay_payment_id }))
  else
    (.error .verification_failed,
     updateFirst db p.order_id (fun o => { o with payment_status := "failed" }))

/-- Pydantic validation of the `verify-payment` body: every field of
`PaymentVerification` is required, so a missing field fails the request
before the handler runs. -/
def parseVerifyPayload (r : RawVerifyPayload) : Except ApiError PaymentVerification :=
  match r.razorpay_order_id, r.razorpay_payment_id, r.razorpay_signature, r.order_id with
  | some a, some b, some c, some d => .ok ⟨a, b, c, d⟩
  | _, _, _, _ => .error .bad_request

/-- Embeds `POST /payments/verify-payment` including the framework's body
validation. -/
def verify_payment_endpoint (sigc : PaymentVerification → Bool)
    (r : RawVerifyPayload) (db : Db) : Except ApiError String × Db :=
  match parseVerifyPayload r with
  | .error e => (.error e, db)
  | .ok p => verify_payment sigc p db

/-- Embeds `confirm_cod_order` (server.py:351-360): one unconditional `update_one`
setting `payment_status = "cod"` and `order_status = "confirmed"`, then a
success response.  There is no existence check and no error path. -/
def confirm_cod_order (oid : String) (db : Db) : Except ApiError String × Db :=
  (.ok "COD order confirmed",
   updateFirst db oid (fun o =>
     { o with payment_status := "cod", order_status := "confirmed" }))

/-- Embeds `confirm_upi_payment` (server.py:396-412): 404 if the order is missing;
otherwise `$set`s `payment_status = "paid"`, `order_status = "confirmed"`
and the caller-supplied `transaction_reference`, with no signature, amount
or prior-state check. -/
def confirm_upi_payment (oid : String) (tref : String) (db : Db) :
    Except ApiError String × Db :=
  match findOrder db oid with
  | none => (.error .not_found, db)
  | some _ =>
    (.ok "UPI payment confirmed",
     updateFirst db oid (fun o =>
       { o with payment_status := "paid", order_status := "confirmed",
                transaction_reference := some tref }))

/-- Embeds `update_order_status` (server.py:615-623): unconditional `$set` of
`order_status`; 404 reported afterwards when `matched_count == 0`, i.e.
exactly when no document's `id` matches. -/
def update_order_status (oid status : String) (db : Db) :
    Except ApiError String × Db :=
  match findOrder db oid with
  | none => (.error .not_found, db)
  | some _ =>
    (.ok "Order status updated",
     updateFirst db oid (fun o => { o with order_status := status }))

/-- The order-mutating operations named by the spec's state machine:
payment verification, COD confirmation, UPI confirmation, admin status
update. -/
inductive Op where
  | verify (sigc : PaymentVerification → Bool) (p : PaymentVerification)
  | cod (oid : String)
  | upi (oid : String) (tref : String)
  | adminStatus (oid : String) (status : String)

/-- State effect of one operation on the orders collection. -/
def applyOp (op : Op) (db : Db) : Db :=
  match op with
  | .verify sigc p => (verify_payment sigc p db).2
  | .cod oid => (confirm_cod_order oid db).2
  | .upi oid tref => (confirm_upi_payment oid tref db).2
  | .adminStatus oid status => (update_order_status oid status db).2

/-- A sequence of operations, applied left to right. -/
def runOps (ops : List Op) (db : Db) : Db :=
  ops.foldl (fun d op => applyOp op d) db

/-! ### Basic lemmas about the collection operations -/

theorem findOrder_nil (oid : String) : findOrder [] oid = none := rfl

theorem findOrder_cons (o : OrderRec) (rest : Db) (oid : String) :
    findOrder (o :: rest) oid =
      if o.id = oid then some o else findOrder rest oid := by
  by_cases h : o.id = oid <;> simp [findOrder, List.find?, h]

theorem updateFirst_length (db : Db) (oid : String) (f : OrderRec → OrderRec) :
    (updateFirst db oid f).length = db.length := by
  induction db with
  | nil => rfl
  | cons o rest ih =>
    simp only [updateFirst]
    split <;> simp [ih]

theorem updateFirst_of_find_none (db : Db) (oid : String) (f : OrderRec → OrderRec)
    (h : findOrder db oid = none) : updateFirst db oid f = db := by
  induction db with
  | nil => rfl
  | cons o rest ih =>
    rw [findOrder_cons] at h
    by_cases hc : o.id = oid
    · simp [hc] at h
    · simp only [hc, if_false] at h
      simp [updateFirst, hc, ih h]

theorem findOrder_updateFirst (db : Db) (oid : String) (f : OrderRec → OrderRec)
    (o : OrderRec) (h : findOrder db oid = some o) (hid : (f o).id = o.id) :
    findOrder (updateFirst db oid f) oid = some (f o) := by
  induction db with
  | nil => simp [findOrder_nil] at h
  | cons a rest ih =>
    rw [findOrder_cons] at h
    by_cases hc : a.id = oid
    · simp only [hc, if_true, Option.some.injEq] at h
      subst h
      rw [updateFirst, if_pos hc, findOrder_cons, if_pos (hid.trans hc)]
    · simp only [hc, if_false] at h
      rw [updateFirst, if_neg hc, findOrder_cons, if_neg hc]
      exact ih h

theorem updateFirst_forall₂ (db : Db) (oid : String) (f : OrderRec → OrderRec)
    (R : OrderRec → OrderRec → Prop) (hrefl : ∀ o, R o o) (hf : ∀ o, R o (f o)) :
    List.Forall₂ R db (updateFirst db oid f) := by
  induction db with
  | nil => exact List.Forall₂.nil
  | cons o rest ih =>
    by_cases hc : o.id = oid
    · rw [updateFirst, if_pos hc]
      exact List.Forall₂.cons (hf o) (List.forall₂_same.2 fun x _ => hrefl x)
    · rw [updateFirst, if_neg hc]
      exact List.Forall₂.cons (hrefl o) ih

theorem updateFirst_idem (db : Db) (oid : String) (f : OrderRec → OrderRec)
    (hid : ∀ o, (f o).id = o.id) (hff : ∀ o, f (f o) = f o) :
    updateFirst (updateFirst db oid f) oid f = updateFirst db oid f := by
  induction db with
  | nil => rfl
  | cons o rest ih =>
    by_cases hc : o.id = oid
    · rw [updateFirst, if_pos hc, updateFirst, if_pos ((hid o).trans hc), hff]
    · rw [updateFirst, if_neg hc, updateFirst, if_neg hc, ih]

/-! ### Evaluation lemmas for the binary64 rounding model -/

theorem log2_unique (q : ℚ) (e : ℤ) (h0 : 0 < q)
    (h1 : (2:ℚ) ^ e ≤ q) (h2 : q < (2:ℚ) ^ (e + 1)) : Int.log 2 q = e := by
  have hc : ((2:ℕ):ℚ) = 2 := by norm_num
  have hle : e ≤ Int.log 2 q := by
    rw [← Int.zpow_le_iff_le_log one_lt_two h0, hc]
    exact h1
  have hlt : Int.log 2 q < e + 1 := by
    rw [← Int.lt_zpow_iff_log_lt one_lt_two h0, hc]
    exact h2
  omega

theorem fl_eval_pos (q : ℚ) (e : ℤ) (h0 : 0 < q)
    (h1 : (2:ℚ) ^ e ≤ q) (h2 : q < (2:ℚ) ^ (e + 1)) :
    fl q = ((roundHalfEven (q * 2 ^ (52 - e)) : ℤ) : ℚ) * 2 ^ (e - 52) := by
  rw [fl, if_neg (ne_of_gt h0), if_neg (not_lt.mpr h0.le), flPos,
      log2_unique q e h0 h1 h2]

theorem roundHalfEven_intCast (n : ℤ) : roundHalfEven (n : ℚ) = n := by
  simp only [roundHalfEven, Int.floor_intCast, sub_self]
  norm_num

/-- The binary64 rounding fixes every value of the form `m * 2 ^ e` with a
53-bit significand `m` (every representable normal double). -/
theorem fl_fixed (m e : ℤ) (h1 : 2 ^ 52 ≤ m) (h2 : m < 2 ^ 53) :
    fl ((m : ℚ) * 2 ^ e) = (m : ℚ) * 2 ^ e := by
  have hm0 : (0:ℚ) < (m:ℚ) := by
    have : (0:ℤ) < m := lt_of_lt_of_le (by norm_num) h1
    exact_mod_cast this
  have hp : (0:ℚ) < (2:ℚ) ^ e := zpow_pos (by norm_num) e
  have h0 : (0:ℚ) < (m:ℚ) * 2 ^ e := mul_pos hm0 hp
  have hm1 : (2:ℚ) ^ (52:ℤ) ≤ (m:ℚ) := by
    have : ((2:ℤ) ^ (52:ℕ) : ℚ) ≤ (m:ℚ) := by exact_mod_cast h1
    norm_num at this ⊢
    exact this
  have hm2 : (m:ℚ) < (2:ℚ) ^ (53:ℤ) := by
    have : (m:ℚ) < ((2:ℤ) ^ (53:ℕ) : ℚ) := by exact_mod_cast h2
    norm_num at this ⊢
    exact this
  have h1' : (2:ℚ) ^ (e + 52) ≤ (m:ℚ) * 2 ^ e := by
    rw [zpow_add₀ (by norm_num : (2:ℚ) ≠ 0)]
    calc (2:ℚ) ^ e * 2 ^ (52:ℤ) ≤ 2 ^ e * (m:ℚ) :=
          mul_le_mul_of_nonneg_left hm1 hp.le
    _ = (m:ℚ) * 2 ^ e := mul_comm _ _
  have h2' : (m:ℚ) * 2 ^ e < (2:ℚ) ^ (e + 52 + 1) := by
    have he : e + 52 + 1 = e + 53 := by omega
    rw [he, zpow_add₀ (by norm_num : (2:ℚ) ≠ 0)]
    calc (m:ℚ) * 2 ^ e = 2 ^ e * (m:ℚ) := mul_comm _ _
    _ < 2 ^ e * 2 ^ (53:ℤ) := mul_lt_mul_of_pos_left hm2 hp
  rw [fl_eval_pos _ (e + 52) h0 h1' h2']
  have hs : (m:ℚ) * 2 ^ e * 2 ^ (52 - (e + 52)) = (m:ℚ) := by
    rw [mul_assoc, ← zpow_add₀ (by norm_num : (2:ℚ) ≠ 0)]
    have : e + (52 - (e + 52)) = 0 := by omega
    rw [this, zpow_zero, mul_one]
  rw [hs, roundHalfEven_intCast]
  have he2 : e + 52 - 52 = e := by omega
  rw [he2]

/-- Helper to evaluate `fl` at a concrete representable value. -/
theorem fl_fixed_eq (m e : ℤ) (v : ℚ) (hv : (m : ℚ) * 2 ^ e = v)
    (h1 : 2 ^ 52 ≤ m) (h2 : m < 2 ^ 53) : fl v = v :=
  hv ▸ fl_fixed m e h1 h2

/-! ### Payment-status transition machinery (claim C1) -/

/-- Per-order effect of one operation on `payment_status`: either it is left
unchanged, or it is overwritten with `"paid"`, `"failed"` or `"cod"` — the
only values any handler ever writes into `payment_status`. -/
def StepR (o o' : OrderRec) : Prop :=
  o'.payment_status = o.payment_status ∨ o'.payment_status = "paid" ∨
    o'.payment_status = "failed" ∨ o'.payment_status = "cod"

theorem StepR.refl (o : OrderRec) : StepR o o := Or.inl rfl

theorem StepR.trans {a b c : OrderRec} (h1 : StepR a b) (h2 : StepR b c) :
    StepR a c := by
  rcases h2 with h2 | h2
  · rcases h1 with h1 | h1
    · exact Or.inl (h2.trans h1)
    · exact Or.inr (h2 ▸ h1)
  · exact Or.inr h2

theorem forall₂_trans {R : OrderRec → OrderRec → Prop}
    (ht : ∀ a b c, R a b → R b c → R a c) :
    ∀ {l₁ l₂ l₃ : Db}, List.Forall₂ R l₁ l₂ → List.Forall₂ R l₂ l₃ →
      List.Forall₂ R l₁ l₃ := by
  intro l₁ l₂ l₃ h12
  induction h12 generalizing l₃ with
  | nil => intro h23; cases h23; exact List.Forall₂.nil
  | cons h hrest ih =>
    intro h23
    cases h23 with
    | cons h' hrest' => exact List.Forall₂.cons (ht _ _ _ h h') (ih hrest')

theorem applyOp_forall₂ (op : Op) (db : Db) :
    List.Forall₂ StepR db (applyOp op db) := by
  cases op with
  | verify sigc p =>
    by_cases hs : sigc p
    · simp only [applyOp, verify_payment, hs, if_true]
      exact updateFirst_forall₂ _ _ _ _ StepR.refl
        (fun o => Or.inr (Or.inl rfl))
    · simp only [applyOp, verify_payment, hs, if_false]
      exact updateFirst_forall₂ _ _ _ _ StepR.refl
        (fun o => Or.inr (Or.inr (Or.inl rfl)))
  | cod oid =>
    simp only [applyOp, confirm_cod_order]
    exact updateFirst_forall₂ _ _ _ _ StepR.refl
      (fun o => Or.inr (Or.inr (Or.inr rfl)))
  | upi oid tref =>
    simp only [applyOp, confirm_upi_payment]
    cases h : findOrder db oid with
    | none => exact List.forall₂_same.2 fun x _ => StepR.refl x
    | some o =>
      exact updateFirst_forall₂ _ _ _ _ StepR.refl
        (fun o => Or.inr (Or.inl rfl))
  | adminStatus oid status =>
    simp only [applyOp, update_order_status]
    cases h : findOrder db oid with
    | none => exact List.forall₂_same.2 fun x _ => StepR.refl x
    | some o =>
      exact updateFirst_forall₂ _ _ _ _ StepR.refl (fun o => Or.inl rfl)

theorem runOps_forall₂ (ops : List Op) (db : Db) :
    List.Forall₂ StepR db (runOps ops db) := by
  induction ops generalizing db with
  | nil => exact List.forall₂_same.2 fun x _ => StepR.refl x
  | cons op rest ih =>
    have ht : ∀ a b c : OrderRec, StepR a b → StepR b c → StepR a c :=
      fun _ _ _ h1 h2 => StepR.trans h1 h2
    have hstep : runOps (op :: rest) db = runOps rest (applyOp op db) := rfl
    rw [hstep]
    exact forall₂_trans ht (applyOp_forall₂ op db) (ih (applyOp op db))

/-! ### Concrete fixtures -/

/-- A concrete stored order used by witnesses and counterexamples. -/
def mkOrder (oid ps os : String) (amt : ℚ) : OrderRec :=
  { id := oid
    customer_name := "Naman"
    customer_email := "naman@example.com"
    customer_phone := "9999999999"
    customer_address := "42 Test Street"
    items := []
    total_amount := amt
    payment_method := "razorpay"
    payment_status := ps
    order_status := os
    razorpay_order_id := none
    razorpay_payment_id := none
    transaction_reference := none }

/-! ### Claims -/

/-- C1 (counterexample): the claim "once `payment_status` is `paid` no
subsequent operation changes it — not to `failed` or a COD marker either" is
false: running `verify_payment` with a failing signature on an already-paid
order overwrites `payment_status` with `"failed"`. -/
theorem C1_counterexample :
    findOrder (runOps [Op.verify (fun _ => false) ⟨"rz1", "pay1", "sig1", "o1"⟩]
        [mkOrder "o1" "paid" "confirmed" 100]) "o1"
      = some { mkOrder "o1" "paid" "confirmed" 100 with payment_status := "failed" } := by
  rfl

/-- C1 (amended): across every sequence of the order-mutating operations
(payment verification, COD confirmation, UPI confirmation, admin status
update), an order whose `payment_status` is `"paid"` never returns to
`"pending"` — no handler ever writes `"pending"` — although `"paid"` can
still be overwritten with `"failed"` (stale failed verification) or `"cod"`
(COD confirmation). -/
theorem C1_paid_never_returns_to_pending
    (ops : List Op) (db : Db) (i : ℕ) (hi : i < db.length)
    (hpaid : (db.get ⟨i, hi⟩).payment_status = "paid")
    (hi' : i < (runOps ops db).length) :
    ((runOps ops db).get ⟨i, hi'⟩).payment_status ≠ "pending" := by
  have h := (runOps_forall₂ ops db).get hi hi'
  rcases h with h | h | h | h
  · rw [h, hpaid]; decide
  · rw [h]; decide
  · rw [h]; decide
  · rw [h]; decide

/-- Closed witness for `C1_paid_never_returns_to_pending` at a concrete
paid order and a concrete operation sequence. -/
theorem C1_paid_never_returns_to_pending_witness :
    ((runOps [Op.cod "o1", Op.adminStatus "o1" "shipped"]
        [mkOrder "o1" "paid" "confirmed" 100]).get
      ⟨0, by rw [runOps]; decide⟩).payment_status ≠ "pending" :=
  C1_paid_never_returns_to_pending
    [Op.cod "o1", Op.adminStatus "o1" "shipped"]
    [mkOrder "o1" "paid" "confirmed" 100] 0 (by decide) rfl _

/-- An order-creation request violating every validation rule the spec
states: blank contact fields and a line item with quantity `0` and a
negative price. -/
def invalidOrderReq : OrderCreate :=
  { customer_name := ""
    customer_email := ""
    customer_phone := ""
    customer_address := ""
    items := [⟨"p1", 0, -5⟩]
    payment_method := "cod" }

/-- C2 (counterexample): the claim "create-order fails with
`validation_failed` and creates no Order on invalid input" is false: on a
request with blank contact fields and a line item of quantity 0 and
negative price, `create_order` (whose type has no error outcome at all)
appends a new Order to the collection. -/
theorem C2_counterexample :
    (create_order invalidOrderReq "o-new" []).2
      = [(create_order invalidOrderReq "o-new" []).1] ∧
    (create_order invalidOrderReq "o-new" []).1.payment_status = "pending" :=
  ⟨rfl, rfl⟩

/-- C2 (amended): `create_order` performs no validation whatsoever: for
every request — blank contact fields, empty line items, non-positive
quantities and negative prices included — it succeeds, appending exactly
one new Order with the pydantic defaults `payment_status = "pending"`,
`order_status = "placed"`. -/
theorem C2_no_validation (req : OrderCreate) (newId : String) (db : Db) :
    (create_order req newId db).2 = db ++ [(create_order req newId db).1] ∧
    (create_order req newId db).1.payment_status = "pending" ∧
    (create_order req newId db).1.order_status = "placed" :=
  ⟨rfl, rfl, rfl⟩

/-- Float evaluation of the all-exactly-representable scenario
`[(price 100, qty 2), (price 50, qty 1)]`: every product and partial sum
is a representable binary64, so the accumulated total is exactly 250. -/
theorem totalAmount_scenario :
    totalAmount [⟨"p1", 2, 100⟩, ⟨"p2", 1, 50⟩] = 250 := by
  show fl (fl (0 + fl (100 * fl ((2:ℤ):ℚ))) + fl (50 * fl ((1:ℤ):ℚ))) = 250
  have c2 : ((2:ℤ):ℚ) = 2 := by norm_num
  have c1 : ((1:ℤ):ℚ) = 1 := by norm_num
  have hfl2 : fl 2 = 2 :=
    fl_fixed_eq 4503599627370496 (-51) 2 (by norm_num) (by norm_num) (by norm_num)
  have hfl1 : fl 1 = 1 :=
    fl_fixed_eq 4503599627370496 (-52) 1 (by norm_num) (by norm_num) (by norm_num)
  have h200 : fl 200 = 200 :=
    fl_fixed_eq 7036874417766400 (-45) 200 (by norm_num) (by norm_num) (by norm_num)
  have h50 : fl 50 = 50 :=
    fl_fixed_eq 7036874417766400 (-47) 50 (by norm_num) (by norm_num) (by norm_num)
  have h250 : fl 250 = 250 :=
    fl_fixed_eq 8796093022208000 (-45) 250 (by norm_num) (by norm_num) (by norm_num)
  rw [c2, c1, hfl2, hfl1]
  have e1 : (100:ℚ) * 2 = 200 := by norm_num
  have e2 : (50:ℚ) * 1 = 50 := by norm_num
  rw [e1, e2, h200, h50]
  have e3 : (0:ℚ) + 200 = 200 := by norm_num
  rw [e3, h200]
  have e4 : (200:ℚ) + 50 = 250 := by norm_num
  rw [e4, h250]

/-- Float evaluation of one line item with unit price `float("0.1")`
(the binary64 `3602879701896397 / 2^55`) and quantity 3: the product
`0.1 * 3` falls exactly halfway between two binary64 values and rounds up
(ties to even), so the stored total is `5404319552844596 * 2^-54`
(`0.30000000000000004`), not the exact product. -/
theorem totalAmount_tenth :
    totalAmount [⟨"p1", 3, 3602879701896397 / 2 ^ 55⟩]
      = (5404319552844596:ℚ) * 2 ^ (-54:ℤ) := by
  show fl (0 + fl ((3602879701896397 / 2 ^ 55 : ℚ) * fl ((3:ℤ):ℚ)))
      = (5404319552844596:ℚ) * 2 ^ (-54:ℤ)
  have c3 : ((3:ℤ):ℚ) = 3 := by norm_num
  have hfl3 : fl 3 = 3 :=
    fl_fixed_eq 6755399441055744 (-51) 3 (by norm_num) (by norm_num) (by norm_num)
  rw [c3, hfl3]
  have hprod : (3602879701896397 / 2 ^ 55 : ℚ) * 3 = 10808639105689191 / 2 ^ 55 := by
    norm_num
  rw [hprod]
  have hround : fl (10808639105689191 / 2 ^ 55 : ℚ)
      = (5404319552844596:ℚ) * 2 ^ (-54:ℤ) := by
    rw [fl_eval_pos _ (-2) (by norm_num) (by norm_num) (by norm_num)]
    have hs : (10808639105689191 / 2 ^ 55 : ℚ) * 2 ^ (52 - (-2:ℤ))
        = 10808639105689191 / 2 := by norm_num
    rw [hs]
    have hfloor : ⌊(10808639105689191 / 2 : ℚ)⌋ = 5404319552844595 := by norm_num
    have hr : roundHalfEven (10808639105689191 / 2 : ℚ) = 5404319552844596 := by
      simp only [roundHalfEven, hfloor]
      norm_num
    rw [hr]
    norm_num
  rw [hround]
  have hz : (0:ℚ) + (5404319552844596:ℚ) * 2 ^ (-54:ℤ)
      = (5404319552844596:ℚ) * 2 ^ (-54:ℤ) := zero_add _
  rw [hz]
  exact fl_fixed_eq 5404319552844596 (-54) _ rfl (by norm_num) (by norm_num)

/-- C3 (counterexample): the claim "total_amount equals the exact sum of
quantity times unit price for every valid line-item sequence" is false
under the program's binary64 arithmetic: for the single line item with
unit price `float("0.1")` and quantity 3 the stored total is
`0.30000000000000004` (= `5404319552844596 * 2^-54`), which differs both
from the exact product `3 × (3602879701896397 / 2^55)` of the stored unit
price and from the exact decimal `0.3`. -/
theorem C3_counterexample :
    (create_order
        { customer_name := "N", customer_email := "e", customer_phone := "p",
          customer_address := "a",
          items := [⟨"p1", 3, 3602879701896397 / 2 ^ 55⟩],
          payment_method := "razorpay" } "o3" []).1.total_amount
        ≠ 3 * (3602879701896397 / 2 ^ 55 : ℚ) ∧
    (create_order
        { customer_name := "N", customer_email := "e", customer_phone := "p",
          customer_address := "a",
          items := [⟨"p1", 3, 3602879701896397 / 2 ^ 55⟩],
          payment_method := "razorpay" } "o3" []).1.total_amount
        ≠ 3 / 10 := by
  have ht : (create_order
      { customer_name := "N", customer_email := "e", customer_phone := "p",
        customer_address := "a",
        items := [⟨"p1", 3, 3602879701896397 / 2 ^ 55⟩],
        payment_method := "razorpay" } "o3" []).1.total_amount
      = (5404319552844596:ℚ) * 2 ^ (-54:ℤ) := totalAmount_tenth
  rw [ht]
  constructor
  · norm_num
  · norm_num

/-- C3 (amended): the Order returned by `create_order` (which is exactly
the record appended to the collection) has `total_amount` equal to the
binary64-accumulated sum of quantity times unit price — each product and
each running sum rounded to the nearest double — which can differ from the
exact sum (see the 0.1 × 3 counterexample); on the scenario
`[(price 100, qty 2), (price 50, qty 1)]` all intermediate values are
exactly representable and the total is exactly 250. -/
theorem C3_total_amount_float_sum (req : OrderCreate) (newId : String) (db : Db) :
    (create_order req newId db).1.total_amount = totalAmount req.items ∧
    (create_order req newId db).2 = db ++ [(create_order req newId db).1] ∧
    (create_order
        { customer_name := "N", customer_email := "e", customer_phone := "p",
          customer_address := "a",
          items := [⟨"p1", 2, 100⟩, ⟨"p2", 1, 50⟩],
          payment_method := "razorpay" } "oid1" []).1.total_amount = 250 :=
  ⟨rfl, rfl, totalAmount_scenario⟩

/-- C4: when the signature check fails on an existing Order,
`verify_payment` reports the verification failure (HTTP 400, the spec's
`signature_mismatch`), sets that Order's `payment_status` to `"failed"`
leaving every other field — `order_status` included — unchanged, and leaves
every other document either unchanged or (none matches first) untouched. -/
theorem C4_failed_verification (sigc : PaymentVerification → Bool)
    (p : PaymentVerification) (db : Db) (o : OrderRec)
    (hsig : sigc p = false) (ho : findOrder db p.order_id = some o) :
    (verify_payment sigc p db).1 = .error .verification_failed ∧
    findOrder (verify_payment sigc p db).2 p.order_id
      = some { o with payment_status := "failed" } ∧
    List.Forall₂ (fun a b => b = a ∨ b = { a with payment_status := "failed" })
      db (verify_payment sigc p db).2 := by
  have hv : verify_payment sigc p db
      = (.error .verification_failed,
         updateFirst db p.order_id (fun x => { x with payment_status := "failed" })) := by
    simp [verify_payment, hsig]
  rw [hv]
  refine ⟨rfl, ?_, ?_⟩
  · exact findOrder_updateFirst db p.order_id _ o ho rfl
  · exact updateFirst_forall₂ db p.order_id _ _ (fun a => Or.inl rfl) (fun a => Or.inr rfl)

/-- Closed witness for `C4_failed_verification`: a concrete pending order
and an always-failing signature check. -/
theorem C4_failed_verification_witness :
    (verify_payment (fun _ => false) ⟨"rz1", "pay1", "badsig", "o1"⟩
        [mkOrder "o1" "pending" "placed" 100]).1 = .error .verification_failed ∧
    findOrder (verify_payment (fun _ => false) ⟨"rz1", "pay1", "badsig", "o1"⟩
        [mkOrder "o1" "pending" "placed" 100]).2 "o1"
      = some { mkOrder "o1" "pending" "placed" 100 with payment_status := "failed" } := by
  have h := C4_failed_verification (fun _ => false) ⟨"rz1", "pay1", "badsig", "o1"⟩
      [mkOrder "o1" "pending" "placed" 100] (mkOrder "o1" "pending" "placed" 100) rfl rfl
  exact ⟨h.1, h.2.1⟩

/-- C5: successful payment verification is idempotent — when the signature
check accepts the payload, re-running `verify_payment` with the same payload
on the state produced by the first run returns the same response and leaves
the collection in exactly the same state (`payment_status = "paid"`,
`order_status = "confirmed"`, same recorded `razorpay_payment_id`). -/
theorem C5_verify_success_idempotent (sigc : PaymentVerification → Bool)
    (p : PaymentVerification) (db : Db) (hsig : sigc p = true) :
    verify_payment sigc p (verify_payment sigc p db).2 = verify_payment sigc p db := by
  simp only [verify_payment, hsig, if_true]
  have h := updateFirst_idem db p.order_id
      (fun o =>
        { o with payment_status := "paid", order_status := "confirmed",
                 razorpay_payment_id := some p.razorpay_payment_id })
      (fun o => rfl) (fun o => rfl)
  rw [h]

/-- Closed witness for `C5_verify_success_idempotent` at a concrete order
and an accepting signature check. -/
theorem C5_verify_success_idempotent_witness :
    verify_payment (fun _ => true) ⟨"rz1", "pay1", "sig1", "o1"⟩
        (verify_payment (fun _ => true) ⟨"rz1", "pay1", "sig1", "o1"⟩
          [mkOrder "o1" "pending" "placed" 100]).2
      = verify_payment (fun _ => true) ⟨"rz1", "pay1", "sig1", "o1"⟩
          [mkOrder "o1" "pending" "placed" 100] :=
  C5_verify_success_idempotent (fun _ => true) ⟨"rz1", "pay1", "sig1", "o1"⟩
    [mkOrder "o1" "pending" "placed" 100] rfl

/-- C7 (counterexample): there is no placeholder-reference fallback: on an
existing order, an adapter failure (network error or malformed provider
response) propagates out of `create_razorpay_order` as a provider error —
the request fails and no locally generated reference is returned. -/
theorem C7_counterexample :
    create_razorpay_order .err "o1" [mkOrder "o1" "pending" "placed" 100]
      = (.error .provider_error, [mkOrder "o1" "pending" "placed" 100]) := rfl

/-- C7 (amended): for every existing order, an adapter failure makes
`create_razorpay_order` fail the request with a propagated provider error,
leaving the collection unchanged; no placeholder transaction reference is
issued. -/
theorem C7_provider_failure_propagates (db : Db) (oid : String) (o : OrderRec)
    (ho : findOrder db oid = some o) :
    create_razorpay_order .err oid db = (.error .provider_error, db) := by
  simp [create_razorpay_order, ho]

/-- Closed witness for `C7_provider_failure_propagates` at a concrete
order. -/
theorem C7_provider_failure_propagates_witness :
    create_razorpay_order .err "o7" [mkOrder "o7" "pending" "placed" 50]
      = (.error .provider_error, [mkOrder "o7" "pending" "placed" 50]) :=
  C7_provider_failure_propagates [mkOrder "o7" "pending" "placed" 50] "o7"
    (mkOrder "o7" "pending" "placed" 50) rfl

/-- C8 (counterexample): when the payload carries an order identifier that
matches no stored Order, `verify_payment` does not fail with `not_found`:
the handler never looks the order up, so with a passing signature it
reports success (against an empty collection, which stays empty). -/
theorem C8_counterexample :
    verify_payment_endpoint (fun _ => true)
        ⟨some "rz1", some "pay1", some "sig1", some "ghost"⟩ []
      = (.ok "Payment verified successfully", ([] : Db)) ∧
    (verify_payment_endpoint (fun _ => true)
        ⟨some "rz1", some "pay1", some "sig1", some "ghost"⟩ []).1
      ≠ .error .not_found :=
  ⟨rfl, fun h => nomatch h⟩

/-- C8 (amended): a payload missing the local order identifier is rejected
by request validation (`bad_request`) with no state change; but when the
identifier is present and no matching Order exists, the operation does not
fail with `not_found`: it leaves the collection unchanged and returns
success when the signature check passes, or the verification failure when
it does not. -/
theorem C8_missing_id_vs_unknown_order (sigc : PaymentVerification → Bool)
    (r : RawVerifyPayload) (db : Db) :
    (r.order_id = none →
      verify_payment_endpoint sigc r db = (.error .bad_request, db)) ∧
    (∀ p, parseVerifyPayload r = .ok p → findOrder db p.order_id = none →
      (verify_payment_endpoint sigc r db).2 = db ∧
      (verify_payment_endpoint sigc r db).1
        = (if sigc p then .ok "Payment verified successfully"
           else .error .verification_failed)) := by
  constructor
  · intro hid
    have hp : parseVerifyPayload r = .error .bad_request := by
      obtain ⟨a, b, c, d⟩ := r
      simp only at hid
      subst hid
      cases a <;> cases b <;> cases c <;> rfl
    simp [verify_payment_endpoint, hp]
  · intro p hp hnone
    have he : verify_payment_endpoint sigc r db = verify_payment sigc p db := by
      simp [verify_payment_endpoint, hp]
    rw [he]
    by_cases hs : sigc p <;>
      simp [verify_payment, hs, updateFirst_of_find_none db p.order_id _ hnone]

/-- Closed witness for `C8_missing_id_vs_unknown_order`: a payload with the
order identifier absent is rejected with `bad_request` on an empty
collection. -/
theorem C8_missing_id_vs_unknown_order_witness :
    verify_payment_endpoint (fun _ => true) ⟨some "rz1", some "pay1", some "sig1", none⟩ []
      = (.error .bad_request, ([] : Db)) :=
  (C8_missing_id_vs_unknown_order (fun _ => true)
      ⟨some "rz1", some "pay1", some "sig1", none⟩ []).1 rfl

/-- C9 (counterexample): COD confirmation on an Order identifier matching
no stored Order does not fail with `not_found`: the handler has no
existence check, so it reports success (the collection stays unchanged). -/
theorem C9_counterexample :
    confirm_cod_order "ghost" [] = (.ok "COD order confirmed", ([] : Db)) ∧
    (confirm_cod_order "ghost" ([] : Db)).1 ≠ .error .not_found :=
  ⟨rfl, fun h => nomatch h⟩

/-- C9 (amended): for an unknown Order identifier COD confirmation persists
no state change but still reports success (it never returns `not_found`);
for an existing Order it sets `payment_status = "cod"` and
`order_status = "confirmed"`, all other fields unchanged. -/
theorem C9_cod_confirmation (oid : String) (db : Db) :
    (findOrder db oid = none →
      confirm_cod_order oid db = (.ok "COD order confirmed", db)) ∧
    (∀ o, findOrder db oid = some o →
      (confirm_cod_order oid db).1 = .ok "COD order confirmed" ∧
      findOrder (confirm_cod_order oid db).2 oid
        = some { o with payment_status := "cod", order_status := "confirmed" }) := by
  constructor
  · intro h
    simp [confirm_cod_order, updateFirst_of_find_none db oid _ h]
  · intro o ho
    exact ⟨rfl, findOrder_updateFirst db oid _ o ho rfl⟩

/-- Closed witness for `C9_cod_confirmation` at a concrete pending order. -/
theorem C9_cod_confirmation_witness :
    findOrder (confirm_cod_order "o1" [mkOrder "o1" "pending" "placed" 100]).2 "o1"
      = some { mkOrder "o1" "pending" "placed" 100 with
               payment_status := "cod", order_status := "confirmed" } :=
  ((C9_cod_confirmation "o1" [mkOrder "o1" "pending" "placed" 100]).2
    (mkOrder "o1" "pending" "placed" 100) rfl).2

/-- C10: UPI confirmation fails with `not_found` when no matching Order
exists; otherwise — for an arbitrary (possibly empty) caller-supplied
transaction reference and regardless of the Order's prior payment or order
state, with no signature or amount check — it sets
`payment_status = "paid"`, `order_status = "confirmed"` and stores the
supplied reference. -/
theorem C10_upi_confirmation (oid tref : String) (db : Db) :
    (findOrder db oid = none →
      confirm_upi_payment oid tref db = (.error .not_found, db)) ∧
    (∀ o, findOrder db oid = some o →
      (confirm_upi_payment oid tref db).1 = .ok "UPI payment confirmed" ∧
      findOrder (confirm_upi_payment oid tref db).2 oid
        = some { o with payment_status := "paid", order_status := "confirmed",
                        transaction_reference := some tref }) := by
  constructor
  · intro h
    simp [confirm_upi_payment, h]
  · intro o ho
    constructor
    · simp [confirm_upi_payment, ho]
    · simp only [confirm_upi_payment, ho]
      exact findOrder_updateFirst db oid _ o ho rfl

/-- Closed witness for `C10_upi_confirmation`: an empty transaction
reference on an order whose payment previously failed is still marked
paid. -/
theorem C10_upi_confirmation_witness :
    findOrder (confirm_upi_payment "o1" "" [mkOrder "o1" "failed" "placed" 100]).2 "o1"
      = some { mkOrder "o1" "failed" "placed" 100 with
               payment_status := "paid", order_status := "confirmed",
               transaction_reference := some "" } :=
  ((C10_upi_confirmation "o1" "" [mkOrder "o1" "failed" "placed" 100]).2
    (mkOrder "o1" "failed" "placed" 100) rfl).2

end ECom
